import Mathlib

/-!
Shallow embedding of `src/Server.js` (App-backend): the quota tracker,
response caches, identity resolver, provider gateways, fallback
orchestrator and the two POST handlers, with theorems settling the
specification claims about them.

Modelling conventions:
* `sha1` is treated as an abstract deterministic hash, passed as a
  function parameter `h : String → String`; everything fed to it is
  built concretely, so determinism and input-dependence facts are exact.
* JavaScript `Map`s (`dailyCounters`, `seoCache`, `learnCache`) are
  modelled extensionally as total/partial functions; `getCounts`'s
  insert-zero-entry-if-absent is the identity on that extensional view.
* The network is an oracle: a `NetOutcome` value says what `fetch`
  (plus `res.text()` / `res.json()`) would produce for a request —
  a thrown exception, a non-ok HTTP response, or a parsed JSON body.
  Provider calls additionally report how many network requests they made.
* JS `||` on strings (empty string is falsy) is `jsOr` / `jsOrS`.
-/

namespace AppBackend

/-- JS `a || b` where `a` is a possibly-undefined string: `undefined`
and the empty string are falsy. -/
def jsOr (a : Option String) (b : String) : String :=
  match a with
  | some s => if s = "" then b else s
  | none => b

/-- JS `a || b` on two definite strings (empty string is falsy). -/
def jsOrS (a b : String) : String :=
  if a = "" then b else a

/-- Environment configuration fixed at process start (`server.js` lines
10-21): daily limits and the four optional provider credentials; an
absent credential is the empty string, as in the source defaults. -/
structure Config where
  DAILY_LIMIT_SEO : Int
  DAILY_LIMIT_LEARN : Int
  GEMINI_API_KEY : String
  OPENAI_API_KEY : String
  GEMINI_LEARN_KEY : String
  OPENAI_LEARN_KEY : String
deriving DecidableEq

/-- Per-(day, identity) usage counters (`{ seo: 0, learn: 0 }` values of
`dailyCounters`). -/
structure Counts where
  seo : Nat
  learn : Nat
deriving DecidableEq

/-- The two features, the strings passed as `type` to `incCount`. -/
inductive Feature
  | seo
  | learn
deriving DecidableEq

/-- Extensional state of `dailyCounters`: day string → user key →
counters, absent entries reading as zero counts (which is what
`getCounts`'s insert-default produces). -/
def CounterMap : Type := String → String → Counts

/-- Remaining daily budget per feature, as returned by `remainings`. -/
structure Remaining where
  seo : Int
  learn : Int
deriving DecidableEq

/-- `remainings(dateKey, userKey)` (`server.js` lines 59-65):
`max(0, limit - count)` per feature. -/
def remainings (cfg : Config) (dateKey userKey : String) (counters : CounterMap) : Remaining :=
  let c := counters dateKey userKey
  { seo := max 0 (cfg.DAILY_LIMIT_SEO - (c.seo : Int)),
    learn := max 0 (cfg.DAILY_LIMIT_LEARN - (c.learn : Int)) }

/-- `c[type] = (c[type] || 0) + 1` on a counter record. -/
def bumpFeature (c : Counts) : Feature → Counts
  | .seo => { c with seo := c.seo + 1 }
  | .learn => { c with learn := c.learn + 1 }

/-- `incCount(dateKey, userKey, type)` (`server.js` lines 66-69):
bump the named counter by 1, leaving every other (day, user) entry
untouched. -/
def incCount (dateKey userKey : String) (f : Feature) (counters : CounterMap) : CounterMap :=
  fun d u =>
    if d = dateKey then
      if u = userKey then bumpFeature (counters dateKey userKey) f else counters d u
    else counters d u

/-- JS `String.prototype.trim()`: drop whitespace from both ends,
written on the character list so that it evaluates by kernel
reduction. -/
def jsTrim (s : String) : String :=
  String.mk (((s.data.dropWhile Char.isWhitespace).reverse.dropWhile
    Char.isWhitespace).reverse)

/-- `getUserKey(req)` (`server.js` lines 39-45), parametric in the hash
`h` standing for `sha1`.  `xUser`, `forwardedFor`, `remoteAddr`,
`userAgent` are `req.headers['x-user']`, `req.headers['x-forwarded-for']`,
`req.socket.remoteAddress` and `req.headers['user-agent']`; `none` is an
absent header. -/
def getUserKey (h : String → String)
    (xUser forwardedFor remoteAddr userAgent : Option String) : String :=
  let headerUser := jsTrim (jsOr xUser "")
  if headerUser ≠ "" then
    h ("user:" ++ headerUser)
  else
    let ipCand : Option String := forwardedFor.map fun s => jsTrim ((s.splitOn ",").headD "")
    let ip := jsOr ipCand (jsOr remoteAddr "0.0.0.0")
    let ua := (jsOr userAgent "").take 200
    h (ip ++ "|" ++ ua)

/-- Result of one provider gateway call, the tagged union returned by
`callOpenAI` / `callGemini`: `{ok:true, provider, text}` or
`{ok:false, reason, status?, text?/error?}`. -/
inductive PResult
  | success (provider : String) (text : String)
  | failure (reason : String) (status : Option Nat) (detail : Option String)
deriving DecidableEq

/-- `ok` flag of a `PResult`. -/
def PResult.isOk : PResult → Bool
  | .success _ _ => true
  | .failure _ _ _ => false

/-- What the network would do for one provider request: `fetch`
(or a subsequent `res.text()` / `res.json()`) throws, or the HTTP
response is non-ok with a body text, or it is ok with a parsed JSON
body of type `β`. -/
inductive NetOutcome (β : Type)
  | exception (msg : String)
  | httpError (status : Nat) (text : String)
  | httpOk (body : β)
deriving DecidableEq

/-- Shape-relevant view of an OpenAI success body:
`j.choices?.[0]?.message?.content` and `j.choices?.[0]?.text`
(`none` when the optional-chaining path is undefined). -/
structure OpenAIBody where
  content : Option String
  choiceText : Option String
deriving DecidableEq

/-- Shape-relevant view of a Gemini success body: either the whole body
is a JSON string, or it is some other value with the optional-chaining
lookups `j?.candidates?.[0]?.content?.text` and `j?.outputText`, plus
its `JSON.stringify` rendering. -/
inductive GeminiBody
  | jstr (s : String)
  | jobj (candidateText : Option String) (outputTextField : Option String) (stringified : String)
deriving DecidableEq

/-- `callOpenAI(prompt, apiKey)` (`server.js` lines 72-97) against a
network oracle; the second component counts network requests made.
No credential short-circuits to `no_openai_key` with zero requests;
every other path yields a tagged result, never an exception escaping. -/
def callOpenAI (apiKey : String) (net : NetOutcome OpenAIBody) : PResult × Nat :=
  if apiKey = "" then (.failure "no_openai_key" none none, 0)
  else
    match net with
    | .exception m => (.failure "openai_exception" none (some m), 1)
    | .httpError status text => (.failure "openai_error" (some status) (some text), 1)
    | .httpOk b => (.success "openai" (jsOr b.content (jsOr b.choiceText "")), 1)

/-- `callGemini(prompt, apiKey)` (`server.js` lines 99-129); the text
extraction is `candidates?.[0]?.content?.text || outputText ||
(typeof j === 'string' ? j : JSON.stringify(j))`. -/
def callGemini (apiKey : String) (net : NetOutcome GeminiBody) : PResult × Nat :=
  if apiKey = "" then (.failure "no_gemini_key" none none, 0)
  else
    match net with
    | .exception m => (.failure "gemini_exception" none (some m), 1)
    | .httpError status text => (.failure "gemini_error" (some status) (some text), 1)
    | .httpOk b =>
      match b with
      | .jstr s => (.success "gemini" s, 1)
      | .jobj c o str => (.success "gemini" (jsOr c (jsOr o str)), 1)

/-- Network oracles for one request: what each provider endpoint would
return as a function of the prompt sent to it. -/
structure NetEnv where
  gemini : String → NetOutcome GeminiBody
  openai : String → NetOutcome OpenAIBody

/-- Outcome of the fallback orchestrator, with per-provider network
request counts. -/
structure OrchResult where
  result : PResult
  geminiCalls : Nat
  openaiCalls : Nat
deriving DecidableEq

/-- `aiSeo(prompt)` (`server.js` lines 132-142): try Gemini if its key
is set, short-circuit on success; then OpenAI likewise; else the
aggregate failure `no_providers_ok`. -/
def aiSeo (cfg : Config) (net : NetEnv) (prompt : String) : OrchResult :=
  if cfg.GEMINI_API_KEY ≠ "" then
    let g := callGemini cfg.GEMINI_API_KEY (net.gemini prompt)
    if g.1.isOk then ⟨g.1, g.2, 0⟩
    else if cfg.OPENAI_API_KEY ≠ "" then
      let o := callOpenAI cfg.OPENAI_API_KEY (net.openai prompt)
      if o.1.isOk then ⟨o.1, g.2, o.2⟩
      else ⟨.failure "no_providers_ok" none none, g.2, o.2⟩
    else ⟨.failure "no_providers_ok" none none, g.2, 0⟩
  else if cfg.OPENAI_API_KEY ≠ "" then
    let o := callOpenAI cfg.OPENAI_API_KEY (net.openai prompt)
    if o.1.isOk then ⟨o.1, 0, o.2⟩
    else ⟨.failure "no_providers_ok" none none, 0, o.2⟩
  else ⟨.failure "no_providers_ok" none none, 0, 0⟩

/-- `aiLearn(prompt)` (`server.js` lines 145-155): same chain with the
learn-feature credentials. -/
def aiLearn (cfg : Config) (net : NetEnv) (prompt : String) : OrchResult :=
  if cfg.GEMINI_LEARN_KEY ≠ "" then
    let g := callGemini cfg.GEMINI_LEARN_KEY (net.gemini prompt)
    if g.1.isOk then ⟨g.1, g.2, 0⟩
    else if cfg.OPENAI_LEARN_KEY ≠ "" then
      let o := callOpenAI cfg.OPENAI_LEARN_KEY (net.openai prompt)
      if o.1.isOk then ⟨o.1, g.2, o.2⟩
      else ⟨.failure "no_providers_ok" none none, g.2, o.2⟩
    else ⟨.failure "no_providers_ok" none none, g.2, 0⟩
  else if cfg.OPENAI_LEARN_KEY ≠ "" then
    let o := callOpenAI cfg.OPENAI_LEARN_KEY (net.openai prompt)
    if o.1.isOk then ⟨o.1, 0, o.2⟩
    else ⟨.failure "no_providers_ok" none none, 0, o.2⟩
  else ⟨.failure "no_providers_ok" none none, 0, 0⟩

/-- Request body of `POST /api/seo/generate`; `none` fields are absent
(undefined) properties, for which the destructuring defaults fire. -/
structure SeoReqBody where
  topic : Option String
  script : Option String
  language : Option String
  shorts : Option Bool
deriving DecidableEq

/-- The four SEO fields after the destructuring defaults
`{ topic = '', script = '', language = 'en', shorts = false }`. -/
structure SeoFields where
  topic : String
  script : String
  language : String
  shorts : Bool
deriving DecidableEq

/-- Request body of `POST /api/learn/ask`. -/
structure LearnReqBody where
  question : Option String
  language : Option String
  sect : Option String
deriving DecidableEq

/-- The learn fields after the defaults
`{ question = '', language = 'en', section = 'seo-basics' }`
(`sect` models the `section` property, a reserved word here). -/
structure LearnFields where
  question : String
  language : String
  sect : String
deriving DecidableEq

/-- `const { topic = '', script = '', language = 'en', shorts = false }
= req.body || {}` (`server.js` line 217). -/
def normalizeSeoBody : Option SeoReqBody → SeoFields
  | none => ⟨"", "", "en", false⟩
  | some b => ⟨b.topic.getD "", b.script.getD "", b.language.getD "en", b.shorts.getD false⟩

/-- `const { question = '', language = 'en', section = 'seo-basics' }
= req.body || {}` (`server.js` line 279). -/
def normalizeLearnBody : Option LearnReqBody → LearnFields
  | none => ⟨"", "en", "seo-basics"⟩
  | some b => ⟨b.question.getD "", b.language.getD "en", b.sect.getD "seo-basics"⟩

/-- Low hex digit for JSON `\u00XX` escapes. -/
def hexDigit (n : Nat) : Char :=
  if n < 10 then Char.ofNat (48 + n) else Char.ofNat (87 + n)

/-- Escaping of one character as in `JSON.stringify` of a string. -/
def jsonEscapeChar (c : Char) : String :=
  if c = '"' then "\\\""
  else if c = '\\' then "\\\\"
  else if c = Char.ofNat 8 then "\\b"
  else if c = '\t' then "\\t"
  else if c = '\n' then "\\n"
  else if c = Char.ofNat 12 then "\\f"
  else if c = '\r' then "\\r"
  else if c.toNat < 32 then
    "\\u00" ++ String.mk [hexDigit (c.toNat / 16), hexDigit (c.toNat % 16)]
  else String.mk [c]

/-- `JSON.stringify` of a string value. -/
def jsonStr (s : String) : String :=
  "\"" ++ String.join (s.data.map jsonEscapeChar) ++ "\""

/-- `JSON.stringify({ topic, script, language, shorts })`: property
order is the literal's order. -/
def stringifySeoFields (f : SeoFields) : String :=
  "\x7b\"topic\":" ++ jsonStr f.topic ++ ",\"script\":" ++ jsonStr f.script ++
    ",\"language\":" ++ jsonStr f.language ++ ",\"shorts\":" ++
    (if f.shorts then "true" else "false") ++ "\x7d"

/-- `JSON.stringify({ question, language, section })`. -/
def stringifyLearnFields (f : LearnFields) : String :=
  "\x7b\"question\":" ++ jsonStr f.question ++ ",\"language\":" ++ jsonStr f.language ++
    ",\"section\":" ++ jsonStr f.sect ++ "\x7d"

/-- The SEO cache key `sha1(JSON.stringify({topic, script, language,
shorts}))` (`server.js` line 218), a function of the request body only. -/
def seoCacheKeyOf (h : String → String) (body : Option SeoReqBody) : String :=
  h (stringifySeoFields (normalizeSeoBody body))

/-- The learn cache key `sha1(JSON.stringify({question, language,
section}))` (`server.js` line 280). -/
def learnCacheKeyOf (h : String → String) (body : Option LearnReqBody) : String :=
  h (stringifyLearnFields (normalizeLearnBody body))

/-- `buildSeoPrompt` (`server.js` lines 158-174). -/
def buildSeoPrompt (f : SeoFields) : String :=
  let langLabel :=
    if f.language = "hi" then "Hindi"
    else if f.language = "hinglish" then "Hinglish" else "English"
  ("\nYou are a concise YouTube SEO assistant. Language: " ++ langLabel ++
    ".\nOutput ONLY JSON with keys: title (<=100 chars), description (3-6 lines), tags (array of strings).\nVideo type: " ++
    (if f.shorts then "Shorts" else "Long form") ++
    ".\nTopic: " ++ jsOrS f.topic "General" ++
    ".\nScript excerpt: " ++ f.script.take 1000 ++
    ".\n\nConstraints:\n- Title: clickable but honest.\n- Description: 3 bullet lines + CTA.\n- Tags: 10-25 relevant tags.\n\nReturn compact JSON only.\n").trim

/-- `buildLearnPrompt` (`server.js` lines 176-186). -/
def buildLearnPrompt (f : LearnFields) : String :=
  let langLabel := if f.language = "hi" then "Hindi" else "English"
  ("\nYou are a clear SEO teacher. Language: " ++ langLabel ++
    ".\nSection: " ++ f.sect ++
    ".\nUser question: " ++ f.question.take 800 ++
    ".\n\nGive a short answer (4-8 sentences) and 3 practical tips. Keep it simple.\nReturn plain text (no JSON).\n").trim

/-- Parsed SEO payload shape (`title`, `description`, `tags`). -/
structure SeoData where
  title : String
  description : String
  tags : List String
deriving DecidableEq

/-- Entry of `seoCache`: `{ data, provider, at }`. -/
structure SeoCacheEntry where
  provider : String
  data : SeoData
  createdAt : Nat
deriving DecidableEq

/-- Entry of `learnCache`: `{ provider, answer, at }`. -/
structure LearnCacheEntry where
  provider : String
  answer : String
  createdAt : Nat
deriving DecidableEq

/-- The whole mutable server state: the two caches (extensional view of
the `Map`s) and the daily counters. -/
structure ServerState where
  seoCache : String → Option SeoCacheEntry
  learnCache : String → Option LearnCacheEntry
  counters : CounterMap

/-- `Map.set` on an extensional cache. -/
def updCache {α : Type} (m : String → Option α) (k : String) (v : α) :
    String → Option α :=
  fun q => if q = k then some v else m q

/-- Lines 241-253 of `server.js`: try to read structured JSON out of the
AI text (the regex match + `JSON.parse` step is the abstract fallible
`strictParse`), falling back to best-effort field extraction on failure. -/
def parseAiSeoText (strictParse : String → Option SeoData) (text : String) : SeoData :=
  match strictParse text with
  | some d => d
  | none => { title := text.take 100, description := text.take 400, tags := [] }

/-- The static SEO fallback payload (`server.js` lines 233-237). -/
def seoFallback (topic : String) : SeoData :=
  { title := "Quick tips: " ++ jsOrS topic "Grow on YouTube",
    description := "Quick guide for " ++ jsOrS topic "YouTube" ++
      ":\n• Use clear title with 1 main keyword\n• Keep thumbnail 2–4 bold words\n• Add 10+ relevant tags\nCTA: Subscribe for more.",
    tags := ["youtube", "seo", "tips", "growth"] }

/-- The static learn fallback answer (`server.js` line 293). -/
def learnFallbackAnswer : String :=
  "Manual SEO tip:\n- Title: keep main keyword early\n- Thumbnail: contrast + big text\n- Description: 3 lines + CTA\n(Full AI unavailable)"

/-- A `POST /api/seo/generate` request: identity-relevant headers,
connection address, and the JSON body (`none` = absent). -/
structure SeoRequest where
  xUser : Option String
  forwardedFor : Option String
  remoteAddr : Option String
  userAgent : Option String
  body : Option SeoReqBody
deriving DecidableEq

/-- A `POST /api/learn/ask` request. -/
structure LearnRequest where
  xUser : Option String
  forwardedFor : Option String
  remoteAddr : Option String
  userAgent : Option String
  body : Option LearnReqBody
deriving DecidableEq

/-- JSON response bodies the SEO handler can produce. -/
inductive SeoRespBody
  | limitErr (error : String)
  | cachedHit (provider : String) (data : SeoData)
  | degraded (error : String) (fallback : SeoData)
  | fresh (provider : String) (data : SeoData)
deriving DecidableEq

/-- JSON response bodies the learn handler can produce. -/
inductive LearnRespBody
  | limitErr (error : String)
  | cachedHit (provider : String) (answer : String)
  | degraded (error : String) (fallbackAnswer : String)
  | fresh (provider : String) (answer : String)
deriving DecidableEq

/-- Observable outcome of one SEO request: HTTP status, JSON body,
post-state, and how many network requests went to each provider. -/
structure SeoOut where
  status : Nat
  respBody : SeoRespBody
  state : ServerState
  geminiCalls : Nat
  openaiCalls : Nat

/-- Observable outcome of one learn request. -/
structure LearnOut where
  status : Nat
  respBody : LearnRespBody
  state : ServerState
  geminiCalls : Nat
  openaiCalls : Nat

/-- The `POST /api/seo/generate` handler (`server.js` lines 208-264).
`h` stands for `sha1`, `strictParse` for the regex-plus-`JSON.parse`
step, `d` for `today()` at the moment of the request, `now` for
`Date.now()`, `net` for the network. -/
def seoGenerate (cfg : Config) (h : String → String)
    (strictParse : String → Option SeoData) (net : NetEnv)
    (d : String) (now : Nat) (req : SeoRequest) (st : ServerState) : SeoOut :=
  let userKey := getUserKey h req.xUser req.forwardedFor req.remoteAddr req.userAgent
  let rem := remainings cfg d userKey st.counters
  if rem.seo ≤ 0 then
    { status := 429,
      respBody := .limitErr ("Daily SEO limit reached (" ++ toString cfg.DAILY_LIMIT_SEO ++ ")"),
      state := st, geminiCalls := 0, openaiCalls := 0 }
  else
    let fields := normalizeSeoBody req.body
    let cacheKey := seoCacheKeyOf h req.body
    match st.seoCache cacheKey with
    | some item =>
      { status := 200, respBody := .cachedHit (jsOrS item.provider "cache") item.data,
        state := st, geminiCalls := 0, openaiCalls := 0 }
    | none =>
      let prompt := buildSeoPrompt fields
      let r := aiSeo cfg net prompt
      match r.result with
      | .failure _ _ _ =>
        { status := 503, respBody := .degraded "AI unavailable" (seoFallback fields.topic),
          state := { st with counters := incCount d userKey .seo st.counters },
          geminiCalls := r.geminiCalls, openaiCalls := r.openaiCalls }
      | .success prov text =>
        let parsed := parseAiSeoText strictParse text
        let entry : SeoCacheEntry := { provider := jsOrS prov "ai", data := parsed, createdAt := now }
        { status := 200, respBody := .fresh (jsOrS prov "ai") parsed,
          state := { st with
            seoCache := updCache st.seoCache cacheKey entry,
            counters := incCount d userKey .seo st.counters },
          geminiCalls := r.geminiCalls, openaiCalls := r.openaiCalls }

/-- The `POST /api/learn/ask` handler (`server.js` lines 270-305). -/
def learnAsk (cfg : Config) (h : String → String) (net : NetEnv)
    (d : String) (now : Nat) (req : LearnRequest) (st : ServerState) : LearnOut :=
  let userKey := getUserKey h req.xUser req.forwardedFor req.remoteAddr req.userAgent
  let rem := remainings cfg d userKey st.counters
  if rem.learn ≤ 0 then
    { status := 429,
      respBody := .limitErr ("Daily Learn limit reached (" ++ toString cfg.DAILY_LIMIT_LEARN ++ ")"),
      state := st, geminiCalls := 0, openaiCalls := 0 }
  else
    let fields := normalizeLearnBody req.body
    let cacheKey := learnCacheKeyOf h req.body
    match st.learnCache cacheKey with
    | some item =>
      { status := 200, respBody := .cachedHit (jsOrS item.provider "cache") item.answer,
        state := st, geminiCalls := 0, openaiCalls := 0 }
    | none =>
      let prompt := buildLearnPrompt fields
      let r := aiLearn cfg net prompt
      match r.result with
      | .failure _ _ _ =>
        { status := 503, respBody := .degraded "AI unavailable" learnFallbackAnswer,
          state := { st with counters := incCount d userKey .learn st.counters },
          geminiCalls := r.geminiCalls, openaiCalls := r.openaiCalls }
      | .success prov text =>
        let answer := jsTrim text
        let entry : LearnCacheEntry := { provider := jsOrS prov "ai", answer := answer, createdAt := now }
        { status := 200, respBody := .fresh (jsOrS prov "ai") answer,
          state := { st with
            learnCache := updCache st.learnCache cacheKey entry,
            counters := incCount d userKey .learn st.counters },
          geminiCalls := r.geminiCalls, openaiCalls := r.openaiCalls }

/-! Helper definitions and lemmas for the claim theorems. -/

/-- The counter a feature reads (`c.seo` / `c.learn`). -/
def featureCount : Feature → Counts → Nat
  | .seo, c => c.seo
  | .learn, c => c.learn

/-- Apply a sequence of `incCount` calls for one (day, user) pair. -/
def applyIncs (dateKey userKey : String) (ops : List Feature) (counters : CounterMap) :
    CounterMap :=
  ops.foldl (fun c f => incCount dateKey userKey f c) counters

theorem incCount_at_key (dateKey userKey : String) (f : Feature) (counters : CounterMap) :
    incCount dateKey userKey f counters dateKey userKey =
      bumpFeature (counters dateKey userKey) f := by
  simp [incCount]

theorem counts_le_bumpFeature (c : Counts) (f : Feature) :
    c.seo ≤ (bumpFeature c f).seo ∧ c.learn ≤ (bumpFeature c f).learn := by
  cases f <;> simp [bumpFeature]

theorem counts_le_applyIncs (dateKey userKey : String) (ops : List Feature)
    (counters : CounterMap) :
    (counters dateKey userKey).seo ≤ (applyIncs dateKey userKey ops counters dateKey userKey).seo ∧
    (counters dateKey userKey).learn ≤ (applyIncs dateKey userKey ops counters dateKey userKey).learn := by
  induction ops generalizing counters with
  | nil => exact ⟨le_refl _, le_refl _⟩
  | cons f ops ih =>
    have hstep := counts_le_bumpFeature (counters dateKey userKey) f
    have hrest := ih (incCount dateKey userKey f counters)
    rw [incCount_at_key] at hrest
    exact ⟨le_trans hstep.1 hrest.1, le_trans hstep.2 hrest.2⟩

/-- Claim C3: `remaining(D, I)` computes `max(0, limit - count)` per
feature and is therefore never negative; `increment(D, I, f)` raises
`count_f` by exactly 1 (leaving the other feature and all other
(day, identity) entries untouched); and across any sequence of
increments within the same day the remaining budget of each feature is
monotonically non-increasing. -/
theorem C3_theorem :
    (∀ (cfg : Config) (d u : String) (counters : CounterMap),
      (remainings cfg d u counters).seo =
          max 0 (cfg.DAILY_LIMIT_SEO - ((counters d u).seo : Int)) ∧
      (remainings cfg d u counters).learn =
          max 0 (cfg.DAILY_LIMIT_LEARN - ((counters d u).learn : Int)) ∧
      0 ≤ (remainings cfg d u counters).seo ∧
      0 ≤ (remainings cfg d u counters).learn) ∧
    (∀ (d u : String) (f : Feature) (counters : CounterMap),
      featureCount f (incCount d u f counters d u) = featureCount f (counters d u) + 1 ∧
      (∀ g : Feature, g ≠ f →
        featureCount g (incCount d u f counters d u) = featureCount g (counters d u)) ∧
      (∀ d' u' : String, d' ≠ d ∨ u' ≠ u →
        incCount d u f counters d' u' = counters d' u')) ∧
    (∀ (cfg : Config) (d u : String) (ops : List Feature) (counters : CounterMap),
      (remainings cfg d u (applyIncs d u ops counters)).seo ≤
          (remainings cfg d u counters).seo ∧
      (remainings cfg d u (applyIncs d u ops counters)).learn ≤
          (remainings cfg d u counters).learn) := by
  refine ⟨?_, ?_, ?_⟩
  · intro cfg d u counters
    refine ⟨rfl, rfl, ?_, ?_⟩ <;> simp [remainings]
  · intro d u f counters
    refine ⟨?_, ?_, ?_⟩
    · rw [incCount_at_key]; cases f <;> simp [featureCount, bumpFeature]
    · intro g hg
      rw [incCount_at_key]
      cases f <;> cases g <;> simp_all [featureCount, bumpFeature]
    · intro d' u' hne
      unfold incCount
      rcases hne with hne | hne
      · rw [if_neg hne]
      · by_cases hd : d' = d
        · rw [if_pos hd, if_neg hne]
        · rw [if_neg hd]
  · intro cfg d u ops counters
    have hle := counts_le_applyIncs d u ops counters
    constructor <;>
      · simp only [remainings]
        exact max_le_max (le_refl 0) (by omega)

/-- Claim C7: the identity resolver is a pure function of the explicit
identifier, source address and client descriptor: when the explicit
identifier is non-empty after trimming the key is the hash of
`"user:"` + the trimmed identifier, and otherwise the key is the hash
of the source address (first `x-forwarded-for` entry, else the socket
address, else `0.0.0.0`) joined by `"|"` with the client descriptor
truncated to 200 characters. -/
theorem C7_theorem :
    (∀ (h : String → String) (s : String) (ff ra ua : Option String),
      jsTrim s ≠ "" →
      getUserKey h (some s) ff ra ua = h ("user:" ++ jsTrim s)) ∧
    (∀ (h : String → String) (xu ff ra ua : Option String),
      jsTrim (jsOr xu "") = "" →
      getUserKey h xu ff ra ua =
        h (jsOr (ff.map fun a => jsTrim ((a.splitOn ",").headD ""))
              (jsOr ra "0.0.0.0") ++ "|" ++ (jsOr ua "").take 200)) := by
  constructor
  · intro h s ff ra ua hs
    have hj : jsTrim (jsOr (some s) "") = jsTrim s := by
      by_cases h0 : s = "" <;> simp [jsOr, h0]
    unfold getUserKey
    rw [hj, if_pos hs]
  · intro h xu ff ra ua hx
    unfold getUserKey
    rw [hx]
    simp

theorem callOpenAI_ok_shape (k : String) (n : NetOutcome OpenAIBody) :
    (callOpenAI k n).1.isOk = true →
    ∃ t, (callOpenAI k n).1 = .success "openai" t := by
  unfold callOpenAI
  by_cases hk : k = ""
  · simp [hk, PResult.isOk]
  · cases n <;> simp [hk, PResult.isOk]

theorem callGemini_ok_shape (k : String) (n : NetOutcome GeminiBody) :
    (callGemini k n).1.isOk = true →
    ∃ t, (callGemini k n).1 = .success "gemini" t := by
  unfold callGemini
  by_cases hk : k = ""
  · simp [hk, PResult.isOk]
  · cases n with
    | exception m => simp [hk, PResult.isOk]
    | httpError s t => simp [hk, PResult.isOk]
    | httpOk b => cases b <;> simp [hk, PResult.isOk]

/-- Claim C6: the provider gateways are total, never-raising functions:
with no credential they return the tagged `no_*_key` failure and make
zero network requests; with a credential they make exactly one request
and map every network outcome (exception, non-ok status, ok body of any
shape) to either a tagged success carrying the best-effort extracted
text or a tagged failure whose reason is one of the known tags. -/
theorem C6_theorem :
    (∀ n : NetOutcome OpenAIBody, callOpenAI "" n = (.failure "no_openai_key" none none, 0)) ∧
    (∀ n : NetOutcome GeminiBody, callGemini "" n = (.failure "no_gemini_key" none none, 0)) ∧
    (∀ (k : String) (n : NetOutcome OpenAIBody),
      (callOpenAI k n).2 ≤ 1 ∧
      ((∃ t, (callOpenAI k n).1 = .success "openai" t) ∨
       (∃ r s e, (callOpenAI k n).1 = .failure r s e ∧
         (r = "no_openai_key" ∨ r = "openai_error" ∨ r = "openai_exception")))) ∧
    (∀ (k : String) (n : NetOutcome GeminiBody),
      (callGemini k n).2 ≤ 1 ∧
      ((∃ t, (callGemini k n).1 = .success "gemini" t) ∨
       (∃ r s e, (callGemini k n).1 = .failure r s e ∧
         (r = "no_gemini_key" ∨ r = "gemini_error" ∨ r = "gemini_exception")))) := by
  refine ⟨?_, ?_, ?_, ?_⟩
  · intro n; simp [callOpenAI]
  · intro n; simp [callGemini]
  · intro k n
    unfold callOpenAI
    by_cases hk : k = ""
    · simp [hk]
    · cases n <;> simp [hk]
  · intro k n
    unfold callGemini
    by_cases hk : k = ""
    · simp [hk]
    · cases n with
      | exception m => simp [hk]
      | httpError s t => simp [hk]
      | httpOk b => cases b <;> simp [hk]

theorem callOpenAI_calls_le (k : String) (n : NetOutcome OpenAIBody) :
    (callOpenAI k n).2 ≤ 1 := by
  unfold callOpenAI
  by_cases hk : k = ""
  · simp [hk]
  · cases n <;> simp [hk]

theorem callGemini_calls_le (k : String) (n : NetOutcome GeminiBody) :
    (callGemini k n).2 ≤ 1 := by
  unfold callGemini
  by_cases hk : k = ""
  · simp [hk]
  · cases n with
    | exception m => simp [hk]
    | httpError s t => simp [hk]
    | httpOk b => cases b <;> simp [hk]

theorem aiSeo_calls_le (cfg : Config) (net : NetEnv) (p : String) :
    (aiSeo cfg net p).geminiCalls ≤ 1 ∧ (aiSeo cfg net p).openaiCalls ≤ 1 := by
  have hg := callGemini_calls_le cfg.GEMINI_API_KEY (net.gemini p)
  have ho := callOpenAI_calls_le cfg.OPENAI_API_KEY (net.openai p)
  unfold aiSeo
  by_cases hgk : cfg.GEMINI_API_KEY = ""
  · by_cases hok : cfg.OPENAI_API_KEY = ""
    · simp [hgk, hok]
    · by_cases hoo : (callOpenAI cfg.OPENAI_API_KEY (net.openai p)).1.isOk <;>
        simp [hgk, hok, hoo, ho]
  · by_cases hgo : (callGemini cfg.GEMINI_API_KEY (net.gemini p)).1.isOk
    · simp [hgk, hgo, hg]
    · by_cases hok : cfg.OPENAI_API_KEY = ""
      · simp [hgk, hgo, hok, hg]
      · by_cases hoo : (callOpenAI cfg.OPENAI_API_KEY (net.openai p)).1.isOk <;>
          simp [hgk, hgo, hok, hoo, hg, ho]

theorem aiLearn_calls_le (cfg : Config) (net : NetEnv) (p : String) :
    (aiLearn cfg net p).geminiCalls ≤ 1 ∧ (aiLearn cfg net p).openaiCalls ≤ 1 := by
  have hg := callGemini_calls_le cfg.GEMINI_LEARN_KEY (net.gemini p)
  have ho := callOpenAI_calls_le cfg.OPENAI_LEARN_KEY (net.openai p)
  unfold aiLearn
  by_cases hgk : cfg.GEMINI_LEARN_KEY = ""
  · by_cases hok : cfg.OPENAI_LEARN_KEY = ""
    · simp [hgk, hok]
    · by_cases hoo : (callOpenAI cfg.OPENAI_LEARN_KEY (net.openai p)).1.isOk <;>
        simp [hgk, hok, hoo, ho]
  · by_cases hgo : (callGemini cfg.GEMINI_LEARN_KEY (net.gemini p)).1.isOk
    · simp [hgk, hgo, hg]
    · by_cases hok : cfg.OPENAI_LEARN_KEY = ""
      · simp [hgk, hgo, hok, hg]
      · by_cases hoo : (callOpenAI cfg.OPENAI_LEARN_KEY (net.openai p)).1.isOk <;>
          simp [hgk, hgo, hok, hoo, hg, ho]

theorem aiSeo_gemini_first (cfg : Config) (net : NetEnv) (p : String)
    (hk : cfg.GEMINI_API_KEY ≠ "")
    (hok : (callGemini cfg.GEMINI_API_KEY (net.gemini p)).1.isOk = true) :
    aiSeo cfg net p = ⟨(callGemini cfg.GEMINI_API_KEY (net.gemini p)).1,
      (callGemini cfg.GEMINI_API_KEY (net.gemini p)).2, 0⟩ := by
  unfold aiSeo
  simp [hk, hok]

theorem aiLearn_gemini_first (cfg : Config) (net : NetEnv) (p : String)
    (hk : cfg.GEMINI_LEARN_KEY ≠ "")
    (hok : (callGemini cfg.GEMINI_LEARN_KEY (net.gemini p)).1.isOk = true) :
    aiLearn cfg net p = ⟨(callGemini cfg.GEMINI_LEARN_KEY (net.gemini p)).1,
      (callGemini cfg.GEMINI_LEARN_KEY (net.gemini p)).2, 0⟩ := by
  unfold aiLearn
  simp [hk, hok]

theorem aiSeo_openai_second (cfg : Config) (net : NetEnv) (p : String)
    (hgf : cfg.GEMINI_API_KEY = "" ∨
      (callGemini cfg.GEMINI_API_KEY (net.gemini p)).1.isOk = false)
    (hok : cfg.OPENAI_API_KEY ≠ "")
    (hoo : (callOpenAI cfg.OPENAI_API_KEY (net.openai p)).1.isOk = true) :
    (aiSeo cfg net p).result = (callOpenAI cfg.OPENAI_API_KEY (net.openai p)).1 := by
  unfold aiSeo
  rcases hgf with hgk | hgo
  · simp [hgk, hok, hoo]
  · by_cases hgk : cfg.GEMINI_API_KEY = ""
    · simp [hgk, hok, hoo]
    · simp [hgk, hgo, hok, hoo]

theorem aiLearn_openai_second (cfg : Config) (net : NetEnv) (p : String)
    (hgf : cfg.GEMINI_LEARN_KEY = "" ∨
      (callGemini cfg.GEMINI_LEARN_KEY (net.gemini p)).1.isOk = false)
    (hok : cfg.OPENAI_LEARN_KEY ≠ "")
    (hoo : (callOpenAI cfg.OPENAI_LEARN_KEY (net.openai p)).1.isOk = true) :
    (aiLearn cfg net p).result = (callOpenAI cfg.OPENAI_LEARN_KEY (net.openai p)).1 := by
  unfold aiLearn
  rcases hgf with hgk | hgo
  · simp [hgk, hok, hoo]
  · by_cases hgk : cfg.GEMINI_LEARN_KEY = ""
    · simp [hgk, hok, hoo]
    · simp [hgk, hgo, hok, hoo]

theorem aiSeo_all_fail (cfg : Config) (net : NetEnv) (p : String)
    (hgf : cfg.GEMINI_API_KEY = "" ∨
      (callGemini cfg.GEMINI_API_KEY (net.gemini p)).1.isOk = false)
    (hof : cfg.OPENAI_API_KEY = "" ∨
      (callOpenAI cfg.OPENAI_API_KEY (net.openai p)).1.isOk = false) :
    (aiSeo cfg net p).result = .failure "no_providers_ok" none none := by
  unfold aiSeo
  rcases hgf with hgk | hgo <;> rcases hof with hok | hoo
  · simp [hgk, hok]
  · simp [hgk, hoo]
    split <;> rfl
  · by_cases hgk : cfg.GEMINI_API_KEY = ""
    · simp [hgk, hok]
    · simp [hgk, hgo, hok]
  · by_cases hgk : cfg.GEMINI_API_KEY = ""
    · simp [hgk, hoo]
      split <;> rfl
    · by_cases hok : cfg.OPENAI_API_KEY = ""
      · simp [hgk, hgo, hok]
      · simp [hgk, hgo, hok, hoo]

theorem aiLearn_all_fail (cfg : Config) (net : NetEnv) (p : String)
    (hgf : cfg.GEMINI_LEARN_KEY = "" ∨
      (callGemini cfg.GEMINI_LEARN_KEY (net.gemini p)).1.isOk = false)
    (hof : cfg.OPENAI_LEARN_KEY = "" ∨
      (callOpenAI cfg.OPENAI_LEARN_KEY (net.openai p)).1.isOk = false) :
    (aiLearn cfg net p).result = .failure "no_providers_ok" none none := by
  unfold aiLearn
  rcases hgf with hgk | hgo <;> rcases hof with hok | hoo
  · simp [hgk, hok]
  · simp [hgk, hoo]
    split <;> rfl
  · by_cases hgk : cfg.GEMINI_LEARN_KEY = ""
    · simp [hgk, hok]
    · simp [hgk, hgo, hok]
  · by_cases hgk : cfg.GEMINI_LEARN_KEY = ""
    · simp [hgk, hoo]
      split <;> rfl
    · by_cases hok : cfg.OPENAI_LEARN_KEY = ""
      · simp [hgk, hgo, hok]
      · simp [hgk, hgo, hok, hoo]

/-- Claim C4: for each feature the orchestrator tries Gemini first and
OpenAI second, each at most once per request, short-circuiting on the
first success: a credentialed, succeeding Gemini is returned with no
OpenAI request; if Gemini is uncredentialed or fails and OpenAI is
credentialed and succeeds, the OpenAI result (tagged with provider
`openai`) is returned; if neither attempt succeeds the aggregate
failure `no_providers_ok` is returned. -/
theorem C4_theorem :
    (∀ (cfg : Config) (net : NetEnv) (p : String),
      (aiSeo cfg net p).geminiCalls ≤ 1 ∧ (aiSeo cfg net p).openaiCalls ≤ 1 ∧
      (aiLearn cfg net p).geminiCalls ≤ 1 ∧ (aiLearn cfg net p).openaiCalls ≤ 1) ∧
    (∀ (cfg : Config) (net : NetEnv) (p : String),
      cfg.GEMINI_API_KEY ≠ "" →
      (callGemini cfg.GEMINI_API_KEY (net.gemini p)).1.isOk = true →
      aiSeo cfg net p = ⟨(callGemini cfg.GEMINI_API_KEY (net.gemini p)).1,
        (callGemini cfg.GEMINI_API_KEY (net.gemini p)).2, 0⟩) ∧
    (∀ (cfg : Config) (net : NetEnv) (p : String),
      (cfg.GEMINI_API_KEY = "" ∨
        (callGemini cfg.GEMINI_API_KEY (net.gemini p)).1.isOk = false) →
      cfg.OPENAI_API_KEY ≠ "" →
      (callOpenAI cfg.OPENAI_API_KEY (net.openai p)).1.isOk = true →
      (aiSeo cfg net p).result = (callOpenAI cfg.OPENAI_API_KEY (net.openai p)).1 ∧
      ∃ t, (aiSeo cfg net p).result = .success "openai" t) ∧
    (∀ (cfg : Config) (net : NetEnv) (p : String),
      (cfg.GEMINI_API_KEY = "" ∨
        (callGemini cfg.GEMINI_API_KEY (net.gemini p)).1.isOk = false) →
      (cfg.OPENAI_API_KEY = "" ∨
        (callOpenAI cfg.OPENAI_API_KEY (net.openai p)).1.isOk = false) →
      (aiSeo cfg net p).result = .failure "no_providers_ok" none none) ∧
    (∀ (cfg : Config) (net : NetEnv) (p : String),
      cfg.GEMINI_LEARN_KEY ≠ "" →
      (callGemini cfg.GEMINI_LEARN_KEY (net.gemini p)).1.isOk = true →
      aiLearn cfg net p = ⟨(callGemini cfg.GEMINI_LEARN_KEY (net.gemini p)).1,
        (callGemini cfg.GEMINI_LEARN_KEY (net.gemini p)).2, 0⟩) ∧
    (∀ (cfg : Config) (net : NetEnv) (p : String),
      (cfg.GEMINI_LEARN_KEY = "" ∨
        (callGemini cfg.GEMINI_LEARN_KEY (net.gemini p)).1.isOk = false) →
      cfg.OPENAI_LEARN_KEY ≠ "" →
      (callOpenAI cfg.OPENAI_LEARN_KEY (net.openai p)).1.isOk = true →
      (aiLearn cfg net p).result = (callOpenAI cfg.OPENAI_LEARN_KEY (net.openai p)).1 ∧
      ∃ t, (aiLearn cfg net p).result = .success "openai" t) ∧
    (∀ (cfg : Config) (net : NetEnv) (p : String),
      (cfg.GEMINI_LEARN_KEY = "" ∨
        (callGemini cfg.GEMINI_LEARN_KEY (net.gemini p)).1.isOk = false) →
      (cfg.OPENAI_LEARN_KEY = "" ∨
        (callOpenAI cfg.OPENAI_LEARN_KEY (net.openai p)).1.isOk = false) →
      (aiLearn cfg net p).result = .failure "no_providers_ok" none none) := by
  refine ⟨?_, ?_, ?_, ?_, ?_, ?_, ?_⟩
  · intro cfg net p
    exact ⟨(aiSeo_calls_le cfg net p).1, (aiSeo_calls_le cfg net p).2,
      (aiLearn_calls_le cfg net p).1, (aiLearn_calls_le cfg net p).2⟩
  · intro cfg net p hk hok
    exact aiSeo_gemini_first cfg net p hk hok
  · intro cfg net p hgf hok hoo
    refine ⟨aiSeo_openai_second cfg net p hgf hok hoo, ?_⟩
    rw [aiSeo_openai_second cfg net p hgf hok hoo]
    exact callOpenAI_ok_shape _ _ hoo
  · intro cfg net p hgf hof
    exact aiSeo_all_fail cfg net p hgf hof
  · intro cfg net p hk hok
    exact aiLearn_gemini_first cfg net p hk hok
  · intro cfg net p hgf hok hoo
    refine ⟨aiLearn_openai_second cfg net p hgf hok hoo, ?_⟩
    rw [aiLearn_openai_second cfg net p hgf hok hoo]
    exact callOpenAI_ok_shape _ _ hoo
  · intro cfg net p hgf hof
    exact aiLearn_all_fail cfg net p hgf hof

/-- Claim C8: the cache fingerprint is a deterministic function of the
normalized semantic fields alone. Two requests may differ arbitrarily
in identity header, forwarding headers, socket address and client
descriptor — and the handlers may run on different days — yet if their
bodies normalize to the same fields (topic/script/language/shorts,
resp. question/language/section), their fingerprints coincide; the
fingerprint computation takes no identity or time input at all. -/
theorem C8_theorem :
    (∀ (h : String → String) (r1 r2 : SeoRequest),
      normalizeSeoBody r1.body = normalizeSeoBody r2.body →
      seoCacheKeyOf h r1.body = seoCacheKeyOf h r2.body) ∧
    (∀ (h : String → String) (r1 r2 : LearnRequest),
      normalizeLearnBody r1.body = normalizeLearnBody r2.body →
      learnCacheKeyOf h r1.body = learnCacheKeyOf h r2.body) := by
  constructor
  · intro h r1 r2 hn
    unfold seoCacheKeyOf
    rw [hn]
  · intro h r1 r2 hn
    unfold learnCacheKeyOf
    rw [hn]

/-- Claim C8 witness: two concrete SEO requests with different `x-user`,
`x-forwarded-for`, socket address and user agent but identical semantic
fields share one fingerprint. -/
theorem C8_witness :
    normalizeSeoBody (some ⟨some "t", some "s", some "en", some false⟩) =
      normalizeSeoBody (some ⟨some "t", some "s", some "en", some false⟩) ∧
    seoCacheKeyOf (fun s => s)
        (SeoRequest.mk (some "alice") (some "1.2.3.4") (some "5.6.7.8") (some "UA1")
          (some ⟨some "t", some "s", some "en", some false⟩)).body =
      seoCacheKeyOf (fun s => s)
        (SeoRequest.mk none none (some "9.9.9.9") (some "UA2")
          (some ⟨some "t", some "s", some "en", some false⟩)).body :=
  ⟨rfl, C8_theorem.1 (fun s => s)
    (SeoRequest.mk (some "alice") (some "1.2.3.4") (some "5.6.7.8") (some "UA1")
      (some ⟨some "t", some "s", some "en", some false⟩))
    (SeoRequest.mk none none (some "9.9.9.9") (some "UA2")
      (some ⟨some "t", some "s", some "en", some false⟩)) rfl⟩

/-- Claim C10: missing bodies and missing fields get the fixed defaults
(topic/script `''`, language `'en'`, shorts `false`; question `''`,
language `'en'`, section `'seo-basics'`) before fingerprinting, field by
field; and any two requests whose bodies normalize identically — in
particular one omitting a field and one supplying that field's default —
are handled identically: same response and same post-state. -/
theorem C10_theorem :
    (normalizeSeoBody none = ⟨"", "", "en", false⟩ ∧
     normalizeLearnBody none = ⟨"", "en", "seo-basics"⟩ ∧
     (∀ b : SeoReqBody,
       normalizeSeoBody (some { b with topic := none }) =
         normalizeSeoBody (some { b with topic := some "" }) ∧
       normalizeSeoBody (some { b with script := none }) =
         normalizeSeoBody (some { b with script := some "" }) ∧
       normalizeSeoBody (some { b with language := none }) =
         normalizeSeoBody (some { b with language := some "en" }) ∧
       normalizeSeoBody (some { b with shorts := none }) =
         normalizeSeoBody (some { b with shorts := some false })) ∧
     (∀ b : LearnReqBody,
       normalizeLearnBody (some { b with question := none }) =
         normalizeLearnBody (some { b with question := some "" }) ∧
       normalizeLearnBody (some { b with language := none }) =
         normalizeLearnBody (some { b with language := some "en" }) ∧
       normalizeLearnBody (some { b with sect := none }) =
         normalizeLearnBody (some { b with sect := some "seo-basics" }))) ∧
    (∀ (cfg : Config) (h : String → String) (sp : String → Option SeoData)
        (net : NetEnv) (d : String) (now : Nat) (xu ff ra ua : Option String)
        (b1 b2 : Option SeoReqBody) (st : ServerState),
      normalizeSeoBody b1 = normalizeSeoBody b2 →
      seoGenerate cfg h sp net d now ⟨xu, ff, ra, ua, b1⟩ st =
        seoGenerate cfg h sp net d now ⟨xu, ff, ra, ua, b2⟩ st) ∧
    (∀ (cfg : Config) (h : String → String) (net : NetEnv)
        (d : String) (now : Nat) (xu ff ra ua : Option String)
        (b1 b2 : Option LearnReqBody) (st : ServerState),
      normalizeLearnBody b1 = normalizeLearnBody b2 →
      learnAsk cfg h net d now ⟨xu, ff, ra, ua, b1⟩ st =
        learnAsk cfg h net d now ⟨xu, ff, ra, ua, b2⟩ st) := by
  refine ⟨⟨rfl, rfl, ?_, ?_⟩, ?_, ?_⟩
  · intro b
    refine ⟨?_, ?_, ?_, ?_⟩ <;> simp [normalizeSeoBody]
  · intro b
    refine ⟨?_, ?_, ?_⟩ <;> simp [normalizeLearnBody]
  · intro cfg h sp net d now xu ff ra ua b1 b2 st hn
    unfold seoGenerate
    simp only [seoCacheKeyOf, hn]
  · intro cfg h net d now xu ff ra ua b1 b2 st hn
    unfold learnAsk
    simp only [learnCacheKeyOf, hn]

/-- Claim C2: a request whose identity has zero remaining budget for
the feature that day gets HTTP 429 with the rate-limit error, the
post-state equals the pre-state (no quota change, no cache change), and
no network request is made to any provider. -/
theorem C2_theorem :
    (∀ (cfg : Config) (h : String → String) (sp : String → Option SeoData)
        (net : NetEnv) (d : String) (now : Nat) (req : SeoRequest) (st : ServerState),
      (remainings cfg d
          (getUserKey h req.xUser req.forwardedFor req.remoteAddr req.userAgent)
          st.counters).seo = 0 →
      seoGenerate cfg h sp net d now req st =
        ⟨429, .limitErr ("Daily SEO limit reached (" ++ toString cfg.DAILY_LIMIT_SEO ++ ")"),
          st, 0, 0⟩) ∧
    (∀ (cfg : Config) (h : String → String) (net : NetEnv)
        (d : String) (now : Nat) (req : LearnRequest) (st : ServerState),
      (remainings cfg d
          (getUserKey h req.xUser req.forwardedFor req.remoteAddr req.userAgent)
          st.counters).learn = 0 →
      learnAsk cfg h net d now req st =
        ⟨429, .limitErr ("Daily Learn limit reached (" ++ toString cfg.DAILY_LIMIT_LEARN ++ ")"),
          st, 0, 0⟩) := by
  constructor
  · intro cfg h sp net d now req st h0
    unfold seoGenerate
    simp only [h0, le_refl, if_pos]
  · intro cfg h net d now req st h0
    unfold learnAsk
    simp only [h0, le_refl, if_pos]

/-- Claim C1 (amended): when the identity still has remaining budget
for the feature, a request whose fingerprint is in the cache is
answered immediately from the cache (`cached:true`, the stored provider
and payload), with the state unchanged — no quota counter moves — and
no provider request made. (As stated the original claim fails: the
handlers check the quota *before* the cache, so with remaining budget 0
even a cached fingerprint gets 429 — see the counterexample.) -/
theorem C1_theorem :
    (∀ (cfg : Config) (h : String → String) (sp : String → Option SeoData)
        (net : NetEnv) (d : String) (now : Nat) (req : SeoRequest) (st : ServerState)
        (item : SeoCacheEntry),
      0 < (remainings cfg d
          (getUserKey h req.xUser req.forwardedFor req.remoteAddr req.userAgent)
          st.counters).seo →
      st.seoCache (seoCacheKeyOf h req.body) = some item →
      seoGenerate cfg h sp net d now req st =
        ⟨200, .cachedHit (jsOrS item.provider "cache") item.data, st, 0, 0⟩) ∧
    (∀ (cfg : Config) (h : String → String) (net : NetEnv)
        (d : String) (now : Nat) (req : LearnRequest) (st : ServerState)
        (item : LearnCacheEntry),
      0 < (remainings cfg d
          (getUserKey h req.xUser req.forwardedFor req.remoteAddr req.userAgent)
          st.counters).learn →
      st.learnCache (learnCacheKeyOf h req.body) = some item →
      learnAsk cfg h net d now req st =
        ⟨200, .cachedHit (jsOrS item.provider "cache") item.answer, st, 0, 0⟩) := by
  constructor
  · intro cfg h sp net d now req st item hpos hcache
    unfold seoGenerate
    simp only [hcache, if_neg (not_le.mpr hpos)]
  · intro cfg h net d now req st item hpos hcache
    unfold learnAsk
    simp only [hcache, if_neg (not_le.mpr hpos)]

/-! Concrete fixtures used by the counterexample and the witnesses. -/

/-- A concrete stand-in for the abstract hash in closed statements. -/
def idHash : String → String := fun s => s

/-- Default-limit configuration with no provider credentials. -/
def cfg0 : Config := ⟨3, 3, "", "", "", ""⟩

/-- Configuration with both SEO provider credentials set. -/
def cfgBoth : Config := ⟨3, 3, "gkey", "okey", "glkey", "olkey"⟩

/-- A network where every provider request throws. -/
def netDown : NetEnv := ⟨fun _ => .exception "down", fun _ => .exception "down"⟩

/-- A network where Gemini fails with HTTP 500 and OpenAI succeeds. -/
def netOpenAIOnly : NetEnv :=
  ⟨fun _ => .httpError 500 "boom", fun _ => .httpOk ⟨some "openai says hi", none⟩⟩

/-- Strict JSON parse stand-in that always fails over to the
best-effort extraction. -/
def spNone : String → Option SeoData := fun _ => none

/-- A cached SEO payload. -/
def data0 : SeoData := ⟨"T", "D", ["x"]⟩

/-- A cached SEO cache entry. -/
def entry0 : SeoCacheEntry := ⟨"gemini", data0, 0⟩

/-- A cached learn cache entry. -/
def lentry0 : LearnCacheEntry := ⟨"gemini", "ans", 0⟩

/-- Fresh state: empty caches, all counters zero. -/
def st0 : ServerState := ⟨fun _ => none, fun _ => none, fun _ _ => ⟨0, 0⟩⟩

/-- State whose caches hold an entry for every fingerprint and whose
counters are all zero. -/
def stHit : ServerState := ⟨fun _ => some entry0, fun _ => some lentry0, fun _ _ => ⟨0, 0⟩⟩

/-- State whose caches hold an entry for every fingerprint but whose
counters have exhausted both daily limits of `cfg0`. -/
def stExhausted : ServerState :=
  ⟨fun _ => some entry0, fun _ => some lentry0, fun _ _ => ⟨3, 3⟩⟩

/-- A request with an explicit `x-user` and no body. -/
def req0 : SeoRequest := ⟨some "alice", none, none, none, none⟩

/-- The learn request with an explicit `x-user` and no body. -/
def lreq0 : LearnRequest := ⟨some "alice", none, none, none, none⟩

/-- Claim C1 counterexample: a concrete request whose fingerprint is in
the SEO cache but whose identity has zero remaining SEO budget gets
HTTP 429 with the limit error — not the cached payload — because the
handler checks quota before consulting the cache. -/
theorem C1_counterexample :
    stExhausted.seoCache (seoCacheKeyOf idHash req0.body) = some entry0 ∧
    (remainings cfg0 "2025-01-01"
        (getUserKey idHash req0.xUser req0.forwardedFor req0.remoteAddr req0.userAgent)
        stExhausted.counters).seo = 0 ∧
    seoGenerate cfg0 idHash spNone netDown "2025-01-01" 0 req0 stExhausted =
      ⟨429, .limitErr "Daily SEO limit reached (3)", stExhausted, 0, 0⟩ := by
  refine ⟨rfl, by decide, ?_⟩
  rfl

theorem append_ne_empty_left (a b : String) (ha : a ≠ "") : a ++ b ≠ "" := by
  intro h
  apply ha
  have hd : a.data ++ b.data = [] := by
    have := congrArg String.data h
    simpa [String.data_append] using this
  exact String.ext (List.append_eq_nil.mp hd).1

theorem presult_fail_shape (r : PResult) (hf : r.isOk = false) :
    ∃ rr s e, r = .failure rr s e := by
  cases r with
  | success p t => simp [PResult.isOk] at hf
  | failure rr s e => exact ⟨rr, s, e, rfl⟩

/-- Claim C5: on a cache miss with remaining budget, if every provider
attempt fails (the orchestrator reports a failure — including when no
credential is configured), the handler answers HTTP 503 with the static
fallback payload, whose parts are all non-empty, and the identity's
counter for the feature is incremented by exactly one (the other
feature's counter and every other (day, identity) entry unchanged). -/
theorem C5_theorem :
    (∀ (cfg : Config) (h : String → String) (sp : String → Option SeoData)
        (net : NetEnv) (d : String) (now : Nat) (req : SeoRequest) (st : ServerState),
      0 < (remainings cfg d
          (getUserKey h req.xUser req.forwardedFor req.remoteAddr req.userAgent)
          st.counters).seo →
      st.seoCache (seoCacheKeyOf h req.body) = none →
      (aiSeo cfg net (buildSeoPrompt (normalizeSeoBody req.body))).result.isOk = false →
      seoGenerate cfg h sp net d now req st =
        ⟨503, .degraded "AI unavailable" (seoFallback (normalizeSeoBody req.body).topic),
          { st with counters := (incCount d
              (getUserKey h req.xUser req.forwardedFor req.remoteAddr req.userAgent)
              Feature.seo st.counters) },
          (aiSeo cfg net (buildSeoPrompt (normalizeSeoBody req.body))).geminiCalls,
          (aiSeo cfg net (buildSeoPrompt (normalizeSeoBody req.body))).openaiCalls⟩ ∧
      (seoFallback (normalizeSeoBody req.body).topic).title ≠ "" ∧
      (seoFallback (normalizeSeoBody req.body).topic).description ≠ "" ∧
      (seoFallback (normalizeSeoBody req.body).topic).tags ≠ [] ∧
      ((seoGenerate cfg h sp net d now req st).state.counters d
          (getUserKey h req.xUser req.forwardedFor req.remoteAddr req.userAgent)).seo =
        ((st.counters d
          (getUserKey h req.xUser req.forwardedFor req.remoteAddr req.userAgent)).seo) + 1 ∧
      ((seoGenerate cfg h sp net d now req st).state.counters d
          (getUserKey h req.xUser req.forwardedFor req.remoteAddr req.userAgent)).learn =
        (st.counters d
          (getUserKey h req.xUser req.forwardedFor req.remoteAddr req.userAgent)).learn) ∧
    (∀ (cfg : Config) (h : String → String) (net : NetEnv)
        (d : String) (now : Nat) (req : LearnRequest) (st : ServerState),
      0 < (remainings cfg d
          (getUserKey h req.xUser req.forwardedFor req.remoteAddr req.userAgent)
          st.counters).learn →
      st.learnCache (learnCacheKeyOf h req.body) = none →
      (aiLearn cfg net (buildLearnPrompt (normalizeLearnBody req.body))).result.isOk = false →
      learnAsk cfg h net d now req st =
        ⟨503, .degraded "AI unavailable" learnFallbackAnswer,
          { st with counters := (incCount d
              (getUserKey h req.xUser req.forwardedFor req.remoteAddr req.userAgent)
              Feature.learn st.counters) },
          (aiLearn cfg net (buildLearnPrompt (normalizeLearnBody req.body))).geminiCalls,
          (aiLearn cfg net (buildLearnPrompt (normalizeLearnBody req.body))).openaiCalls⟩ ∧
      learnFallbackAnswer ≠ "" ∧
      ((learnAsk cfg h net d now req st).state.counters d
          (getUserKey h req.xUser req.forwardedFor req.remoteAddr req.userAgent)).learn =
        (st.counters d
          (getUserKey h req.xUser req.forwardedFor req.remoteAddr req.userAgent)).learn + 1 ∧
      ((learnAsk cfg h net d now req st).state.counters d
          (getUserKey h req.xUser req.forwardedFor req.remoteAddr req.userAgent)).seo =
        (st.counters d
          (getUserKey h req.xUser req.forwardedFor req.remoteAddr req.userAgent)).seo) := by
  constructor
  · intro cfg h sp net d now req st hpos hmiss hfail
    obtain ⟨rr, s, e, hr⟩ := presult_fail_shape _ hfail
    have hmain : seoGenerate cfg h sp net d now req st =
        ⟨503, .degraded "AI unavailable" (seoFallback (normalizeSeoBody req.body).topic),
          { st with counters := (incCount d
              (getUserKey h req.xUser req.forwardedFor req.remoteAddr req.userAgent)
              Feature.seo st.counters) },
          (aiSeo cfg net (buildSeoPrompt (normalizeSeoBody req.body))).geminiCalls,
          (aiSeo cfg net (buildSeoPrompt (normalizeSeoBody req.body))).openaiCalls⟩ := by
      unfold seoGenerate
      simp only [hmiss, hr, if_neg (not_le.mpr hpos)]
    refine ⟨hmain, ?_, ?_, ?_, ?_, ?_⟩
    · simp only [seoFallback]
      exact append_ne_empty_left _ _ (by decide)
    · simp only [seoFallback]
      exact append_ne_empty_left _ _ (append_ne_empty_left _ _ (by decide))
    · simp [seoFallback]
    · rw [hmain]
      simp [incCount, bumpFeature]
    · rw [hmain]
      simp [incCount, bumpFeature]
  · intro cfg h net d now req st hpos hmiss hfail
    obtain ⟨rr, s, e, hr⟩ := presult_fail_shape _ hfail
    have hmain : learnAsk cfg h net d now req st =
        ⟨503, .degraded "AI unavailable" learnFallbackAnswer,
          { st with counters := (incCount d
              (getUserKey h req.xUser req.forwardedFor req.remoteAddr req.userAgent)
              Feature.learn st.counters) },
          (aiLearn cfg net (buildLearnPrompt (normalizeLearnBody req.body))).geminiCalls,
          (aiLearn cfg net (buildLearnPrompt (normalizeLearnBody req.body))).openaiCalls⟩ := by
      unfold learnAsk
      simp only [hmiss, hr, if_neg (not_le.mpr hpos)]
    refine ⟨hmain, by decide, ?_, ?_⟩
    · rw [hmain]
      simp [incCount, bumpFeature]
    · rw [hmain]
      simp [incCount, bumpFeature]

/-- Claim C9: the total-provider-failure (HTTP 503) path writes nothing
into either cache: both caches of the post-state are exactly the
pre-state caches, so the same fingerprint is still a cache miss
afterwards and a repeat request would attempt the providers again. -/
theorem C9_theorem :
    (∀ (cfg : Config) (h : String → String) (sp : String → Option SeoData)
        (net : NetEnv) (d : String) (now : Nat) (req : SeoRequest) (st : ServerState),
      0 < (remainings cfg d
          (getUserKey h req.xUser req.forwardedFor req.remoteAddr req.userAgent)
          st.counters).seo →
      st.seoCache (seoCacheKeyOf h req.body) = none →
      (aiSeo cfg net (buildSeoPrompt (normalizeSeoBody req.body))).result.isOk = false →
      (seoGenerate cfg h sp net d now req st).status = 503 ∧
      (seoGenerate cfg h sp net d now req st).state.seoCache = st.seoCache ∧
      (seoGenerate cfg h sp net d now req st).state.learnCache = st.learnCache ∧
      (seoGenerate cfg h sp net d now req st).state.seoCache (seoCacheKeyOf h req.body) =
        none) ∧
    (∀ (cfg : Config) (h : String → String) (net : NetEnv)
        (d : String) (now : Nat) (req : LearnRequest) (st : ServerState),
      0 < (remainings cfg d
          (getUserKey h req.xUser req.forwardedFor req.remoteAddr req.userAgent)
          st.counters).learn →
      st.learnCache (learnCacheKeyOf h req.body) = none →
      (aiLearn cfg net (buildLearnPrompt (normalizeLearnBody req.body))).result.isOk = false →
      (learnAsk cfg h net d now req st).status = 503 ∧
      (learnAsk cfg h net d now req st).state.learnCache = st.learnCache ∧
      (learnAsk cfg h net d now req st).state.seoCache = st.seoCache ∧
      (learnAsk cfg h net d now req st).state.learnCache (learnCacheKeyOf h req.body) =
        none) := by
  constructor
  · intro cfg h sp net d now req st hpos hmiss hfail
    obtain ⟨rr, s, e, hr⟩ := presult_fail_shape _ hfail
    have hmain : seoGenerate cfg h sp net d now req st =
        ⟨503, .degraded "AI unavailable" (seoFallback (normalizeSeoBody req.body).topic),
          { st with counters := (incCount d
              (getUserKey h req.xUser req.forwardedFor req.remoteAddr req.userAgent)
              Feature.seo st.counters) },
          (aiSeo cfg net (buildSeoPrompt (normalizeSeoBody req.body))).geminiCalls,
          (aiSeo cfg net (buildSeoPrompt (normalizeSeoBody req.body))).openaiCalls⟩ := by
      unfold seoGenerate
      simp only [hmiss, hr, if_neg (not_le.mpr hpos)]
    rw [hmain]
    exact ⟨rfl, rfl, rfl, hmiss⟩
  · intro cfg h net d now req st hpos hmiss hfail
    obtain ⟨rr, s, e, hr⟩ := presult_fail_shape _ hfail
    have hmain : learnAsk cfg h net d now req st =
        ⟨503, .degraded "AI unavailable" learnFallbackAnswer,
          { st with counters := (incCount d
              (getUserKey h req.xUser req.forwardedFor req.remoteAddr req.userAgent)
              Feature.learn st.counters) },
          (aiLearn cfg net (buildLearnPrompt (normalizeLearnBody req.body))).geminiCalls,
          (aiLearn cfg net (buildLearnPrompt (normalizeLearnBody req.body))).openaiCalls⟩ := by
      unfold learnAsk
      simp only [hmiss, hr, if_neg (not_le.mpr hpos)]
    rw [hmain]
    exact ⟨rfl, rfl, rfl, hmiss⟩

/-- A network where Gemini succeeds outright. -/
def netGeminiOk : NetEnv :=
  ⟨fun _ => .httpOk (.jstr "gemini says hi"), fun _ => .httpOk ⟨some "openai says hi", none⟩⟩

/-- Claim C1 witness: a concrete cache-hit request with budget left is
served from the cache with the state untouched. -/
theorem C1_witness :
    0 < (remainings cfg0 "2025-01-01"
        (getUserKey idHash req0.xUser req0.forwardedFor req0.remoteAddr req0.userAgent)
        stHit.counters).seo ∧
    stHit.seoCache (seoCacheKeyOf idHash req0.body) = some entry0 ∧
    seoGenerate cfg0 idHash spNone netDown "2025-01-01" 0 req0 stHit =
      ⟨200, .cachedHit (jsOrS entry0.provider "cache") entry0.data, stHit, 0, 0⟩ ∧
    0 < (remainings cfg0 "2025-01-01"
        (getUserKey idHash lreq0.xUser lreq0.forwardedFor lreq0.remoteAddr lreq0.userAgent)
        stHit.counters).learn ∧
    stHit.learnCache (learnCacheKeyOf idHash lreq0.body) = some lentry0 ∧
    learnAsk cfg0 idHash netDown "2025-01-01" 0 lreq0 stHit =
      ⟨200, .cachedHit (jsOrS lentry0.provider "cache") lentry0.answer, stHit, 0, 0⟩ :=
  ⟨by decide, rfl,
    C1_theorem.1 cfg0 idHash spNone netDown "2025-01-01" 0 req0 stHit entry0 (by decide) rfl,
    by decide, rfl,
    C1_theorem.2 cfg0 idHash netDown "2025-01-01" 0 lreq0 stHit lentry0 (by decide) rfl⟩

/-- Claim C2 witness: a concrete exhausted identity gets 429 on both
endpoints with the state untouched and zero provider requests. -/
theorem C2_witness :
    (remainings cfg0 "2025-01-01"
        (getUserKey idHash req0.xUser req0.forwardedFor req0.remoteAddr req0.userAgent)
        stExhausted.counters).seo = 0 ∧
    seoGenerate cfg0 idHash spNone netDown "2025-01-01" 0 req0 stExhausted =
      ⟨429, .limitErr "Daily SEO limit reached (3)", stExhausted, 0, 0⟩ ∧
    (remainings cfg0 "2025-01-01"
        (getUserKey idHash lreq0.xUser lreq0.forwardedFor lreq0.remoteAddr lreq0.userAgent)
        stExhausted.counters).learn = 0 ∧
    learnAsk cfg0 idHash netDown "2025-01-01" 0 lreq0 stExhausted =
      ⟨429, .limitErr "Daily Learn limit reached (3)", stExhausted, 0, 0⟩ :=
  ⟨by decide,
    (C2_theorem.1 cfg0 idHash spNone netDown "2025-01-01" 0 req0 stExhausted
      (by decide)).trans rfl,
    by decide,
    (C2_theorem.2 cfg0 idHash netDown "2025-01-01" 0 lreq0 stExhausted
      (by decide)).trans rfl⟩

/-- Claim C4 witness: with both keys set Gemini succeeding
short-circuits; with Gemini failing OpenAI is used; with no keys the
aggregate failure is returned. -/
theorem C4_witness :
    (callGemini cfgBoth.GEMINI_API_KEY (netGeminiOk.gemini "p")).1.isOk = true ∧
    aiSeo cfgBoth netGeminiOk "p" =
      ⟨(callGemini cfgBoth.GEMINI_API_KEY (netGeminiOk.gemini "p")).1,
        (callGemini cfgBoth.GEMINI_API_KEY (netGeminiOk.gemini "p")).2, 0⟩ ∧
    (callGemini cfgBoth.GEMINI_API_KEY (netOpenAIOnly.gemini "p")).1.isOk = false ∧
    (callOpenAI cfgBoth.OPENAI_API_KEY (netOpenAIOnly.openai "p")).1.isOk = true ∧
    (aiSeo cfgBoth netOpenAIOnly "p").result =
      (callOpenAI cfgBoth.OPENAI_API_KEY (netOpenAIOnly.openai "p")).1 ∧
    (aiSeo cfg0 netDown "p").result = .failure "no_providers_ok" none none :=
  ⟨rfl,
    C4_theorem.2.1 cfgBoth netGeminiOk "p" (by decide) rfl,
    rfl, rfl,
    (C4_theorem.2.2.1 cfgBoth netOpenAIOnly "p" (Or.inr rfl) (by decide) rfl).1,
    C4_theorem.2.2.2.1 cfg0 netDown "p" (Or.inl rfl) (Or.inl rfl)⟩

/-- Claim C5 witness: with no credentials configured, a concrete
cache-miss request with budget left yields HTTP 503 and bumps the SEO
counter from 0 to 1. -/
theorem C5_witness :
    0 < (remainings cfg0 "2025-01-01"
        (getUserKey idHash req0.xUser req0.forwardedFor req0.remoteAddr req0.userAgent)
        st0.counters).seo ∧
    st0.seoCache (seoCacheKeyOf idHash req0.body) = none ∧
    (aiSeo cfg0 netDown (buildSeoPrompt (normalizeSeoBody req0.body))).result.isOk = false ∧
    (seoGenerate cfg0 idHash spNone netDown "2025-01-01" 0 req0 st0).status = 503 ∧
    ((seoGenerate cfg0 idHash spNone netDown "2025-01-01" 0 req0 st0).state.counters
        "2025-01-01"
        (getUserKey idHash req0.xUser req0.forwardedFor req0.remoteAddr req0.userAgent)).seo
      = 1 :=
  ⟨by decide, rfl, rfl,
    by rw [(C5_theorem.1 cfg0 idHash spNone netDown "2025-01-01" 0 req0 st0
      (by decide) rfl rfl).1],
    by
      have := (C5_theorem.1 cfg0 idHash spNone netDown "2025-01-01" 0 req0 st0
        (by decide) rfl rfl).2.2.2.2.1
      simpa [st0] using this⟩

/-- Claim C7 witness: concrete identity derivations for both the
explicit-identifier case (trimmed) and the address-plus-descriptor case. -/
theorem C7_witness :
    jsTrim " bob " ≠ "" ∧
    getUserKey idHash (some " bob ") none none none =
      idHash ("user:" ++ jsTrim " bob ") ∧
    jsTrim (jsOr (none : Option String) "") = "" ∧
    getUserKey idHash none (some "1.2.3.4, 9.9.9.9") none (some "UA") =
      idHash (jsOr (((some "1.2.3.4, 9.9.9.9" : Option String)).map
            fun a => jsTrim ((a.splitOn ",").headD ""))
          (jsOr none "0.0.0.0") ++ "|" ++ (jsOr (some "UA") "").take 200) :=
  ⟨by decide,
    C7_theorem.1 idHash " bob " none none none (by decide),
    rfl,
    C7_theorem.2 idHash none (some "1.2.3.4, 9.9.9.9") none (some "UA") rfl⟩

/-- Claim C9 witness: on the concrete 503 path both caches are exactly
the (empty) pre-state caches and the fingerprint is still a miss. -/
theorem C9_witness :
    0 < (remainings cfg0 "2025-01-01"
        (getUserKey idHash req0.xUser req0.forwardedFor req0.remoteAddr req0.userAgent)
        st0.counters).seo ∧
    st0.seoCache (seoCacheKeyOf idHash req0.body) = none ∧
    (aiSeo cfg0 netDown (buildSeoPrompt (normalizeSeoBody req0.body))).result.isOk = false ∧
    (seoGenerate cfg0 idHash spNone netDown "2025-01-01" 0 req0 st0).state.seoCache =
      st0.seoCache ∧
    (seoGenerate cfg0 idHash spNone netDown "2025-01-01" 0 req0 st0).state.learnCache =
      st0.learnCache ∧
    (seoGenerate cfg0 idHash spNone netDown "2025-01-01" 0 req0 st0).state.seoCache
      (seoCacheKeyOf idHash req0.body) = none :=
  ⟨by decide, rfl, rfl,
    (C9_theorem.1 cfg0 idHash spNone netDown "2025-01-01" 0 req0 st0
      (by decide) rfl rfl).2.1,
    (C9_theorem.1 cfg0 idHash spNone netDown "2025-01-01" 0 req0 st0
      (by decide) rfl rfl).2.2.1,
    (C9_theorem.1 cfg0 idHash spNone netDown "2025-01-01" 0 req0 st0
      (by decide) rfl rfl).2.2.2⟩

/-- Claim C10 witness: a request omitting its body and one spelling out
every default value are handled identically, on both endpoints. -/
theorem C10_witness :
    normalizeSeoBody none =
      normalizeSeoBody (some ⟨some "", some "", some "en", some false⟩) ∧
    seoGenerate cfg0 idHash spNone netDown "2025-01-01" 0
        ⟨some "alice", none, none, none, none⟩ st0 =
      seoGenerate cfg0 idHash spNone netDown "2025-01-01" 0
        ⟨some "alice", none, none, none, some ⟨some "", some "", some "en", some false⟩⟩ st0 ∧
    normalizeLearnBody none =
      normalizeLearnBody (some ⟨some "", some "en", some "seo-basics"⟩) ∧
    learnAsk cfg0 idHash netDown "2025-01-01" 0
        ⟨some "alice", none, none, none, none⟩ st0 =
      learnAsk cfg0 idHash netDown "2025-01-01" 0
        ⟨some "alice", none, none, none, some ⟨some "", some "en", some "seo-basics"⟩⟩ st0 :=
  ⟨rfl,
    C10_theorem.2.1 cfg0 idHash spNone netDown "2025-01-01" 0
      (some "alice") none none none none
      (some ⟨some "", some "", some "en", some false⟩) st0 rfl,
    rfl,
    C10_theorem.2.2 cfg0 idHash netDown "2025-01-01" 0
      (some "alice") none none none none
      (some ⟨some "", some "en", some "seo-basics"⟩) st0 rfl⟩

end AppBackend
